import Mathlib

/-!
Shallow embedding of the Gemini Nano web client (`src/ai-core.js`, `src/sw.js`).

The host browser environment (the `window.ai` / `LanguageModel` capability,
the network, the cache storage) is nondeterministic from the program's point
of view; we model each host interaction by an explicit, host-chosen behaviour
value that the embedded function consumes.  Wall-clock metrics
(`performance.now()` timings) and `console.log` calls are not modelled.
-/

namespace GeminiNano

/-- A JavaScript error value: its `name` (e.g. `"AbortError"`) and `message`. -/
structure JsError where
  name : String
  message : String
deriving DecidableEq, Repr

/-- The capabilities of a created model session that the wrapper branches on:
whether `session.promptStreaming` exists (`src/ai-core.js` line 212). -/
structure SessionCaps where
  hasStreaming : Bool
deriving DecidableEq, Repr

/-- Host-chosen behaviour of one `promptStreaming` stream: either it yields a
list of chunks and ends normally, or it yields some chunks and then throws. -/
inductive StreamBehavior where
  | yields (chunks : List String)
  | throwsAfter (chunks : List String) (e : JsError)
deriving DecidableEq, Repr

/-- Host-chosen behaviour of one blocking `session.prompt` call. -/
inductive PromptBehavior where
  | resolves (text : String)
  | rejects (e : JsError)
deriving DecidableEq, Repr

/-- Host script for one attempt of `processText`: the stream behaviour (used
when the session has streaming), the blocking-prompt behaviour (used directly
when streaming is unavailable, or as the fallback when the stream throws a
non-abort error), the session that `createSession` would produce on the
destroyed/quota retry path, and a label `tok` naming the fresh
`AbortController` the attempt creates (line 199). -/
structure Attempt where
  stream : StreamBehavior
  fallback : PromptBehavior
  recreated : SessionCaps
  tok : Nat
deriving DecidableEq, Repr

/-- Mutable state of a `LocalAICore` instance (constructor, lines 7-19).
`abortController` holds the label of the live controller, if any. -/
structure CoreState where
  session : Option SessionCaps
  isProcessing : Bool
  isInitialized : Bool
  abortController : Option Nat
deriving DecidableEq, Repr

/-- One callback invocation observed by the consumer: `onStreamingUpdate`,
`onProcessingComplete` or `onError` (callbacks are assumed installed). -/
inductive Event where
  | streamingUpdate (chunk : String) (isStart : Bool)
      (action : String) (metadata : String) (text : String)
  | processingComplete (result : String)
      (action : String) (metadata : String) (text : String)
  | errorCb (message : String)
deriving DecidableEq, Repr

/-- One call made to the host capability, with the label of the
`AbortController` whose signal was passed where applicable. -/
inductive HostCall where
  | promptStreaming (tok : Nat)
  | prompt (tok : Nat)
  | create
deriving DecidableEq, Repr

/-- The value a `processText` promise settles with: a returned object with
fields `success`, `result`, optional `action` (absent on the aborted
returns) and `aborted` (absent, i.e. `false`, on the success return), or a
thrown error.  The `metrics` field is wall-clock timing and is not
modelled. -/
structure PTReturn where
  success : Bool
  result : String
  action : Option String
  aborted : Bool
deriving DecidableEq, Repr

/-- Outcome of a `processText` call: resolved or rejected. -/
inductive PTRes where
  | ret (r : PTReturn)
  | thrown (e : JsError)
deriving DecidableEq, Repr

/-- Full observable outcome of a `processText` call: the settled value, the
final core state, the callback invocations in order, and the host calls in
order. -/
structure PTOut where
  res : PTRes
  state : CoreState
  events : List Event
  calls : List HostCall
deriving DecidableEq, Repr

/-- The error thrown at `src/ai-core.js` line 182. -/
def sessionUnavailableError : JsError :=
  ⟨"Error", "Sessão da IA não disponível"⟩

/-- The error thrown at `src/ai-core.js` line 186. -/
def alreadyProcessingError : JsError :=
  ⟨"Error", "Já processando outra requisição"⟩

/-- `a == b && chLeads as bs`: Boolean test that the first character list is
an initial segment of the second. -/
def chLeads : List Char → List Char → Bool
  | [], _ => true
  | _ :: _, [] => false
  | a :: as, b :: bs => a == b && chLeads as bs

/-- Boolean test that `needle` occurs as a contiguous run inside the second
list. -/
def chContains (needle : List Char) : List Char → Bool
  | [] => chLeads needle []
  | c :: t => chLeads needle (c :: t) || chContains needle t

/-- JavaScript `hay.includes(needle)` on strings. -/
def jsIncludes (hay needle : String) : Bool :=
  chContains needle.toList hay.toList

/-- The `for await (const chunk of stream)` loop body (lines 217-232): each
truthy (non-empty) chunk is appended to the accumulating `result` and
forwarded to `onStreamingUpdate` with `isStart = false`; falsy (empty)
chunks are skipped entirely.  Returns the accumulated text (chunks
concatenated in arrival order) and the forwarded events in order. -/
def consumeChunks (action metadata text : String) : List String → String × List Event
  | [] => ("", [])
  | c :: cs =>
    let r := consumeChunks action metadata text cs
    if c = "" then r
    else (c ++ r.1, Event.streamingUpdate c false action metadata text :: r.2)

/-- Outcome of the `try` block of `processText` (lines 192-277), before the
outer `catch`/`finally`: either a `return`ed object or a thrown error,
together with the events and host calls made inside the block. -/
inductive TryOutcome where
  | returned (r : PTReturn) (events : List Event) (calls : List HostCall)
  | threw (e : JsError) (events : List Event) (calls : List HostCall)
deriving DecidableEq, Repr

/-- The `try` block of `processText` (lines 192-277).  The start notification
(line 203) always fires first.  With streaming: a normally ending stream
leads to the completion notification and the success return (lines 262-277);
a stream that throws `AbortError` returns the aborted object carrying the
accumulated text or the placeholder (lines 234-243, the catch also clears
the flags, which the `finally` does again); any other stream error falls
back to a blocking `prompt` with the same signal, forwarding its full result
as one chunk (lines 245-252).  Without streaming: the blocking `prompt`
directly (lines 253-260).  A rejection of the blocking call escapes the
`try` block. -/
def tryBody (text action metadata : String) (a : Attempt) (caps : SessionCaps) :
    TryOutcome :=
  let startEvt := Event.streamingUpdate "" true action metadata text
  if caps.hasStreaming then
    match a.stream with
    | .yields chunks =>
      let rc := consumeChunks action metadata text chunks
      .returned ⟨true, rc.1, some action, false⟩
        (startEvt :: rc.2 ++ [Event.processingComplete rc.1 action metadata text])
        [HostCall.promptStreaming a.tok]
    | .throwsAfter chunks e =>
      let rc := consumeChunks action metadata text chunks
      if e.name = "AbortError" then
        .returned ⟨false, if rc.1 = "" then "Parado pelo usuário" else rc.1, none, true⟩
          (startEvt :: rc.2)
          [HostCall.promptStreaming a.tok]
      else
        match a.fallback with
        | .resolves t =>
          .returned ⟨true, t, some action, false⟩
            (startEvt :: rc.2 ++
              [Event.streamingUpdate t false action metadata text,
               Event.processingComplete t action metadata text])
            [HostCall.promptStreaming a.tok, HostCall.prompt a.tok]
        | .rejects e2 =>
          .threw e2 (startEvt :: rc.2)
            [HostCall.promptStreaming a.tok, HostCall.prompt a.tok]
  else
    match a.fallback with
    | .resolves t =>
      .returned ⟨true, t, some action, false⟩
        [startEvt, Event.streamingUpdate t false action metadata text,
         Event.processingComplete t action metadata text]
        [HostCall.prompt a.tok]
    | .rejects e =>
      .threw e [startEvt] [HostCall.prompt a.tok]

/-- `LocalAICore.processText` (lines 180-304), parameterised by the host
script: a list of `Attempt` behaviours, one consumed per (re)entry that gets
past the precondition checks.  The precondition checks (lines 181-187) throw
before touching any state or making any host call.  Then `isProcessing` is
set, a fresh controller is installed, and the `try` block runs.  The outer
`catch` (lines 279-299) maps a thrown `AbortError` to the empty aborted
return; an error whose message mentions `destroyed` or `quota` triggers
`createSession` (which replaces the session and re-sets `isInitialized`)
followed by a recursive re-entry `return await this.processText(...)` whose
settled value — resolution or rejection — is propagated; any other error is
reported to `onError` and rethrown.  The `finally` (lines 300-303) clears
`isProcessing` and `abortController` on every exit path. -/
def processTextAux (text action metadata : String) :
    List Attempt → CoreState → PTOut
  | [], s =>
    match s.session with
    | none => ⟨.thrown sessionUnavailableError, s, [], []⟩
    | some _ =>
      if s.isProcessing then ⟨.thrown alreadyProcessingError, s, [], []⟩
      else ⟨.thrown ⟨"ModelError", "host script exhausted"⟩, s, [], []⟩
  | a :: rest, s =>
    match s.session with
    | none => ⟨.thrown sessionUnavailableError, s, [], []⟩
    | some caps =>
      if s.isProcessing then ⟨.thrown alreadyProcessingError, s, [], []⟩
      else
        let s1 : CoreState :=
          { s with isProcessing := true, abortController := some a.tok }
        match tryBody text action metadata a caps with
        | .returned r evts calls =>
          ⟨.ret r, { s1 with isProcessing := false, abortController := none },
            evts, calls⟩
        | .threw e evts calls =>
          if e.name = "AbortError" then
            ⟨.ret ⟨false, "", none, true⟩,
              { s1 with isProcessing := false, abortController := none },
              evts, calls⟩
          else if e.message ≠ "" ∧
              (jsIncludes e.message "destroyed" ∨ jsIncludes e.message "quota") then
            let s2 : CoreState :=
              { s1 with isInitialized := true, session := some a.recreated }
            let inner := processTextAux text action metadata rest s2
            ⟨inner.res,
              { inner.state with isProcessing := false, abortController := none },
              evts ++ inner.events,
              calls ++ HostCall.create :: inner.calls⟩
          else
            ⟨.thrown e,
              { s1 with isProcessing := false, abortController := none },
              evts ++ [Event.errorCb e.message], calls⟩

/-- `processText` with the host script as the final parameter. -/
def processText (text : String) (action : String) (metadata : String)
    (host : List Attempt) (s : CoreState) : PTOut :=
  processTextAux text action metadata host s

/-! ## Capability probing and initialization (`src/ai-core.js` lines 43-138) -/

/-- The capability-query surface of the host AI interface: whether the
`capabilities` shape and/or the `availability` shape is present, and for each
the status string it resolves with (or the message of the error it rejects
with, modelling the `catch` at line 103). -/
structure AIInterface where
  capabilities : Option (Except String String)
  availability : Option (Except String String)
deriving Repr

/-- The host environment seen by `checkAvailability`: the Chrome major
version parsed from the user agent (0 when absent), and the AI interface
resolved by `getAIInterface` (none when neither access point exists). -/
structure HostEnv where
  chromeVersion : Nat
  aiInterface : Option AIInterface
deriving Repr

/-- A capability query actually invoked on the host interface. -/
inductive ProbeCall where
  | capabilities
  | availability
deriving DecidableEq, Repr

/-- The object `checkAvailability` resolves with. -/
structure AvailResult where
  available : Bool
  status : String
  error : Option String
deriving DecidableEq, Repr

/-- The mapping from the probe's settled value to an `AvailResult`
(lines 82-108): a probe rejection maps to status `error` (the `catch` at
line 103), and the resolved status string is mapped as in lines 82-102. -/
def availabilityStatusMap : Except String String → AvailResult
  | .error msg => ⟨false, "error", some msg⟩
  | .ok availability =>
    if availability = "readily" ∨ availability = "available" then
      ⟨true, "ready", none⟩
    else if availability = "after-download" ∨ availability = "downloading" then
      ⟨false, "downloading", some "O modelo está sendo baixado..."⟩
    else if availability = "downloadable" then
      ⟨false, "downloadable", some "O modelo precisa ser baixado."⟩
    else
      ⟨false, availability, some ("Gemini Nano não disponível: " ++ availability)⟩

/-- `LocalAICore.checkAvailability` (lines 46-110), returning its result
together with the list of capability queries it invoked.  Version below 127
returns `unsupported` before touching the interface; a missing interface
returns `no-api`; otherwise the `capabilities` shape is preferred over the
`availability` shape and the settled probe value is mapped by
`availabilityStatusMap`. -/
def checkAvailability (env : HostEnv) : AvailResult × List ProbeCall :=
  if env.chromeVersion < 127 then
    (⟨false, "unsupported",
      some ("Chrome 127+ é necessário (atual: " ++ toString env.chromeVersion ++ ")")⟩, [])
  else
    match env.aiInterface with
    | none =>
      (⟨false, "no-api",
        some ("A API LanguageModel não está disponível. Habilite as flags " ++
          "experimental-prompt-api-for-gemini-nano e optimization-guide-on-device-model.")⟩,
        [])
    | some ai =>
      let probe : Except String String × List ProbeCall :=
        match ai.capabilities with
        | some r => (r, [ProbeCall.capabilities])
        | none =>
          match ai.availability with
          | some r => (r, [ProbeCall.availability])
          | none => (.ok "no", [])
      (availabilityStatusMap probe.1, probe.2)

/-- The object `initialize` resolves with.  On the unavailable path the code
spreads the whole `AvailResult` into the returned object; we keep its
`status` and `error` fields next to `success`. -/
structure InitResult where
  success : Bool
  status : String
  error : Option String
deriving DecidableEq, Repr

/-- `LocalAICore.initialize` (lines 115-138; named `initializeCore`
here), with the host-chosen outcome of
the `createSession` call passed explicitly.  Fast path when already
initialized with a session; otherwise probe availability and fail with the
probe's status when unavailable; otherwise create a session, mark
initialized and report ready, or report the creation error. -/
def initializeCore (env : HostEnv) (createOutcome : Except String SessionCaps)
    (s : CoreState) : InitResult × CoreState :=
  if s.isInitialized && s.session.isSome then
    (⟨true, "ready", none⟩, s)
  else
    let avail := (checkAvailability env).1
    if !avail.available then
      (⟨false, avail.status, avail.error⟩, s)
    else
      match createOutcome with
      | .ok caps =>
        (⟨true, "ready", none⟩,
          { s with session := some caps, isInitialized := true })
      | .error msg =>
        (⟨false, "error", some msg⟩, s)

/-! ## Interleaved request lifecycle (`src/ai-core.js` lines 143-175, 180-318, 358-365)

`processText`, `createSession`, `stopProcessing` and `destroy` run on one
cooperative thread; the `async` bodies are split into synchronous segments
at their suspension points (`await` / `for await`).  The machine below has
one step per such segment, faithful to the statements each segment executes
on the shared instance fields.  A `processText` call that passes the
precondition checks becomes a *frame* suspended in its stream loop; calling
`abort` on its controller schedules its resumption, which runs the
`AbortError` catch and the `finally` (both clear `isProcessing` and
`abortController` — on whatever the instance fields hold at that later
time). -/

/-- Liveness of the object the stored `this.session` handle refers to:
no handle, a live session, or a session whose `destroy()` has been called
while the handle still refers to it (the window inside `createSession`
between line 146 and the resolution of the `create` call at line 166). -/
inductive SessState where
  | noSess
  | liveSess
  | deadSess
deriving DecidableEq, Repr

/-- An in-flight `processText` frame: its identifier, the label of its
`AbortController`, and whether its controller has been aborted (so its next
resumption unwinds through the `AbortError` catch). -/
structure TaskF where
  tid : Nat
  tok : Nat
  aborted : Bool
deriving DecidableEq, Repr

/-- Machine state: the instance fields plus the set of suspended frames and
the number of `createSession` calls suspended at their `create` await. -/
structure MState where
  sess : SessState
  busy : Bool
  ctrl : Option Nat
  inited : Bool
  frames : List TaskF
  nextTid : Nat
  nextTok : Nat
  creating : Nat
deriving DecidableEq, Repr

/-- Observation emitted by a `callProcess` step: the request was accepted
(recording the session state, the busy flag at the check, and how many other
frames were still in flight), or rejected by one of the two precondition
checks. -/
inductive Obs where
  | accepted (sessAtCheck : SessState) (busyAtCheck : Bool) (othersInFlight : Nat)
  | rejectedNoSession
  | rejectedBusy
deriving DecidableEq, Repr

/-- The synchronous segments of the four public operations. -/
inductive Op where
  | callProcess
  | callStop
  | callDestroy
  | createBegin
  | createResume
  | resumeAborted (tid : Nat)
  | finishFrame (tid : Nat)
deriving DecidableEq, Repr

/-- One synchronous segment.
`callProcess`: lines 181-215 — precondition checks, then set the busy flag,
install a fresh controller and suspend in the stream loop.
`callStop`: lines 309-318 — if a controller is live, abort it (marking the
owning frame), clear it and the busy flag.
`callDestroy`: lines 358-365 — destroy the session, clear the handle and the
flags (the controller field is not touched).
`createBegin`: lines 144-147 and the suspension at the `create` await — the
current session object is destroyed but the handle still refers to it.
`createResume`: line 166/168 resolving — the handle now refers to a fresh
live session.
`resumeAborted`: lines 234-243 and 300-303 — an aborted frame resumes,
its catch and `finally` clear the busy flag and the controller field, and
the frame returns.
`finishFrame`: lines 262-277 and 300-303 — a non-aborted frame's stream
ends; completion runs and the `finally` clears the flags. -/
def mstep (s : MState) : Op → MState × List Obs
  | .callProcess =>
    if s.sess = .noSess then (s, [.rejectedNoSession])
    else if s.busy then (s, [.rejectedBusy])
    else
      ({ s with
          busy := true
          ctrl := some s.nextTok
          frames := ⟨s.nextTid, s.nextTok, false⟩ :: s.frames
          nextTid := s.nextTid + 1
          nextTok := s.nextTok + 1 },
        [.accepted s.sess s.busy s.frames.length])
  | .callStop =>
    match s.ctrl with
    | some t =>
      ({ s with
          ctrl := none
          busy := false
          frames := s.frames.map (fun f =>
            if f.tok == t then { f with aborted := true } else f) }, [])
    | none => (s, [])
  | .callDestroy =>
    ({ s with sess := .noSess, busy := false, inited := false }, [])
  | .createBegin =>
    ({ s with
        sess := if s.sess = .noSess then .noSess else .deadSess
        creating := s.creating + 1 }, [])
  | .createResume =>
    if s.creating = 0 then (s, [])
    else ({ s with sess := .liveSess, creating := s.creating - 1 }, [])
  | .resumeAborted tid =>
    if (s.frames.filter (fun f => f.tid == tid && f.aborted)).isEmpty then (s, [])
    else
      ({ s with
          busy := false
          ctrl := none
          frames := s.frames.filter (fun f => !(f.tid == tid)) }, [])
  | .finishFrame tid =>
    if (s.frames.filter (fun f => f.tid == tid && !f.aborted)).isEmpty then (s, [])
    else
      ({ s with
          busy := false
          ctrl := none
          frames := s.frames.filter (fun f => !(f.tid == tid)) }, [])

/-- Run a sequence of segments, collecting the observations in order. -/
def mrun (s : MState) : List Op → MState × List Obs
  | [] => (s, [])
  | op :: ops =>
    let p := mstep s op
    let q := mrun p.1 ops
    (q.1, p.2 ++ q.2)

/-- The state of a freshly constructed `LocalAICore` (lines 7-19). -/
def mInit0 : MState :=
  ⟨.noSess, false, none, false, [], 0, 0, 0⟩

/-! ## Service worker fetch handling (`src/sw.js` lines 31-70) -/

/-- The fields of a fetch-event request the handler branches on. -/
structure SWRequest where
  method : String
  mode : String
  url : String
deriving DecidableEq, Repr

/-- Host-chosen outcome of `fetch(request)` for this event. -/
inductive NetResult where
  | ok (body : String)
  | fail
deriving DecidableEq, Repr

/-- The named cache bucket, as an association list from url to response
body; `caches.match` returns the first entry for the url. -/
abbrev SWCache := List (String × String)

/-- `caches.match(url)`. -/
def cacheMatch (c : SWCache) (url : String) : Option String :=
  (List.find? (fun p => p.1 == url) c).map (fun p => p.2)

/-- `cache.put(url, response)`: the new entry shadows any older one. -/
def cachePut (c : SWCache) (url body : String) : SWCache :=
  ((url, body) :: c : List (String × String))

/-- How the fetch event was answered: no `respondWith` call (the request
passes through to the network untouched), or `respondWith` with the given
response (`none` models the promise resolving with `undefined`, as in the
cache-miss/network-failure corner where the `catch` returns the absent
`cachedResponse`). -/
inductive SWDecision where
  | passthrough
  | respond (r : Option String)
deriving DecidableEq, Repr

/-- The `fetch` event listener (lines 31-70): non-GET requests return before
`respondWith`; navigation requests go network-first, caching the fresh
response under `./index.html` on success and falling back to the cached
index on failure; all other GETs are answered from the cache when present,
otherwise from the network with the cache populated on success. -/
def handleFetch (cache : SWCache) (net : NetResult) (req : SWRequest) :
    SWDecision × SWCache :=
  if req.method ≠ "GET" then
    (.passthrough, cache)
  else if req.mode = "navigate" then
    match net with
    | .ok body => (.respond (some body), cachePut cache "./index.html" body)
    | .fail => (.respond (cacheMatch cache "./index.html"), cache)
  else
    match cacheMatch cache req.url with
    | some body => (.respond (some body), cache)
    | none =>
      match net with
      | .ok body => (.respond (some body), cachePut cache req.url body)
      | .fail => (.respond none, cache)

/-! ## Specification-side vocabulary and helper lemmas -/

/-- The chunks the loop actually forwards: JavaScript truthiness skips the
empty ones. -/
def forwardedChunks (chunks : List String) : List String :=
  chunks.filter (fun c => !(c == ""))

/-- Concatenation of a list of strings in order. -/
def concatAll (l : List String) : String :=
  l.foldr (fun x y => x ++ y) ""

/-- The chunk notification carrying one forwarded chunk. -/
def chunkEvent (action metadata text c : String) : Event :=
  Event.streamingUpdate c false action metadata text

theorem consumeChunks_eq (action metadata text : String) (chunks : List String) :
    consumeChunks action metadata text chunks =
      (concatAll (forwardedChunks chunks),
        (forwardedChunks chunks).map (chunkEvent action metadata text)) := by
  induction chunks with
  | nil => rfl
  | cons c cs ih =>
    by_cases hc : c = "" <;>
      simp [consumeChunks, forwardedChunks, concatAll, chunkEvent,
        List.filter_cons, hc, ih] at *

theorem str_append_ne_empty (a b : String) (h : a ≠ "") : a ++ b ≠ "" := by
  intro hab
  have hd : (a ++ b).data = "".data := by rw [hab]
  simp [String.data_append] at hd
  exact h (String.ext hd.1)

theorem concatAll_cons_ne_empty (c : String) (cs : List String) (hc : c ≠ "") :
    concatAll (c :: cs) ≠ "" :=
  str_append_ne_empty c (concatAll cs) hc

theorem forwardedChunks_eq_self (chunks : List String)
    (h : ∀ c ∈ chunks, c ≠ "") : forwardedChunks chunks = chunks := by
  unfold forwardedChunks
  rw [List.filter_eq_self]
  intro a ha
  simpa using h a ha

theorem reject_no_session (text action metadata : String) (host : List Attempt)
    (s : CoreState) (h : s.session = none) :
    processText text action metadata host s =
      ⟨.thrown sessionUnavailableError, s, [], []⟩ := by
  cases host <;> simp [processText, processTextAux, h]

theorem reject_busy (text action metadata : String) (host : List Attempt)
    (s : CoreState) (caps : SessionCaps) (h : s.session = some caps)
    (hb : s.isProcessing = true) :
    processText text action metadata host s =
      ⟨.thrown alreadyProcessingError, s, [], []⟩ := by
  cases host <;> simp [processText, processTextAux, h, hb]

/-! ## Claim theorems -/

/-- C1: a `processText` call that fails with a destroyed/quota error performs
exactly one `createSession` and exactly one re-entrant `processText` call —
but, contrary to the claim, the retried call does NOT run to a normal
outcome: `isProcessing` is still `true` when the recursion re-enters the
precondition checks, so the retry is rejected with the "already processing"
error and the whole call rejects.  Evaluation at the failing input: an idle,
initialized core without streaming whose blocking prompt rejects with a
message containing "destroyed".  The host creation succeeds (producing a
session with streaming), so exactly one `HostCall.create` appears, the
session field ends up replaced, yet the settled value is the thrown
"already processing" error and no further host call is made. -/
theorem c1_destroyed_retry_is_rejected :
    processText "hello" "ask" "md"
        [⟨.yields [], .rejects ⟨"Error", "The session is destroyed"⟩, ⟨true⟩, 0⟩]
        ⟨some ⟨false⟩, false, true, none⟩ =
      ⟨.thrown alreadyProcessingError,
        ⟨some ⟨true⟩, false, true, none⟩,
        [Event.streamingUpdate "" true "ask" "md" "hello"],
        [HostCall.prompt 0, HostCall.create]⟩ := by
  rfl

/-- C2: for every streamed `processText` request whose stream runs to
completion, the consumer observes exactly one start notification, then the
forwarded chunks in arrival order, then exactly one completion notification,
and the concatenation of the forwarded chunk texts equals the completion
result text (which is also the result returned). -/
theorem c2_stream_success_notifications
    (s : CoreState) (caps : SessionCaps) (a : Attempt) (rest : List Attempt)
    (text action metadata : String) (chunks : List String)
    (hsess : s.session = some caps) (hbusy : s.isProcessing = false)
    (hstr : caps.hasStreaming = true) (hbeh : a.stream = .yields chunks) :
    (processText text action metadata (a :: rest) s).res =
      .ret ⟨true, concatAll (forwardedChunks chunks), some action, false⟩ ∧
    (processText text action metadata (a :: rest) s).events =
      Event.streamingUpdate "" true action metadata text ::
        (forwardedChunks chunks).map (chunkEvent action metadata text) ++
        [Event.processingComplete (concatAll (forwardedChunks chunks))
          action metadata text] := by
  simp [processText, processTextAux, hsess, hbusy, tryBody, hstr, hbeh,
    consumeChunks_eq]

/-- Witness for C2 at a concrete input (an empty arriving chunk is dropped
from both the forwarded sequence and the result). -/
theorem c2_stream_success_notifications_witness :
    (processText "hi" "ask" "m" [⟨.yields ["a", "", "b"], .resolves "", ⟨true⟩, 5⟩]
        ⟨some ⟨true⟩, false, true, none⟩).res =
      .ret ⟨true, concatAll (forwardedChunks ["a", "", "b"]), some "ask", false⟩ ∧
    (processText "hi" "ask" "m" [⟨.yields ["a", "", "b"], .resolves "", ⟨true⟩, 5⟩]
        ⟨some ⟨true⟩, false, true, none⟩).events =
      Event.streamingUpdate "" true "ask" "m" "hi" ::
        (forwardedChunks ["a", "", "b"]).map (chunkEvent "ask" "m" "hi") ++
        [Event.processingComplete (concatAll (forwardedChunks ["a", "", "b"]))
          "ask" "m" "hi"] :=
  c2_stream_success_notifications ⟨some ⟨true⟩, false, true, none⟩ ⟨true⟩
    ⟨.yields ["a", "", "b"], .resolves "", ⟨true⟩, 5⟩ [] "hi" "ask" "m"
    ["a", "", "b"] rfl rfl rfl rfl

/-- C3 counterexample: a request cancelled after N = 0 chunks settles with
partial text `"Parado pelo usuário"`, not with the empty concatenation of
the first 0 chunks, refuting the claim as stated at N = 0. -/
theorem c3_counterexample_zero_chunks :
    (processText "hi" "ask" "m"
        [⟨.throwsAfter [] ⟨"AbortError", "x"⟩, .resolves "", ⟨true⟩, 0⟩]
        ⟨some ⟨true⟩, false, true, none⟩).res =
      .ret ⟨false, "Parado pelo usuário", none, true⟩ ∧
    "Parado pelo usuário" ≠ concatAll [] := by
  exact ⟨rfl, by decide⟩

/-- C3 (amended): cancelling a streamed request after N ≥ 1 delivered
(non-empty) chunks settles with an aborted result (`success := false`,
`aborted := true`) whose partial text equals the concatenation of those N
chunks, and no completion notification fires; after N = 0 chunks the
partial text is the placeholder `"Parado pelo usuário"` instead of the
empty string. -/
theorem c3_abort_partial_text
    (s : CoreState) (caps : SessionCaps) (a : Attempt) (rest : List Attempt)
    (text action metadata : String) (chunks : List String) (e : JsError)
    (hsess : s.session = some caps) (hbusy : s.isProcessing = false)
    (hstr : caps.hasStreaming = true) (hbeh : a.stream = .throwsAfter chunks e)
    (habort : e.name = "AbortError")
    (hne : chunks ≠ []) (hchunks : ∀ c ∈ chunks, c ≠ "") :
    (processText text action metadata (a :: rest) s).res =
      .ret ⟨false, concatAll chunks, none, true⟩ ∧
    (processText text action metadata (a :: rest) s).events =
      Event.streamingUpdate "" true action metadata text ::
        chunks.map (chunkEvent action metadata text) ∧
    ∀ r a' m' t', Event.processingComplete r a' m' t' ∉
      (processText text action metadata (a :: rest) s).events := by
  have hfwd : forwardedChunks chunks = chunks := forwardedChunks_eq_self chunks hchunks
  have hnz : concatAll chunks ≠ "" := by
    cases chunks with
    | nil => exact absurd rfl hne
    | cons c cs => exact concatAll_cons_ne_empty c cs (hchunks c (by simp))
  refine ⟨?_, ?_, ?_⟩ <;>
    simp [processText, processTextAux, hsess, hbusy, tryBody, hstr, hbeh,
      habort, consumeChunks_eq, hfwd, hnz, chunkEvent]

/-- Witness for the amended C3 at a concrete input with N = 2 chunks. -/
theorem c3_abort_partial_text_witness :
    (processText "hi" "ask" "m"
        [⟨.throwsAfter ["ab", "cd"] ⟨"AbortError", "x"⟩, .resolves "", ⟨true⟩, 0⟩]
        ⟨some ⟨true⟩, false, true, none⟩).res =
      .ret ⟨false, concatAll ["ab", "cd"], none, true⟩ ∧
    (processText "hi" "ask" "m"
        [⟨.throwsAfter ["ab", "cd"] ⟨"AbortError", "x"⟩, .resolves "", ⟨true⟩, 0⟩]
        ⟨some ⟨true⟩, false, true, none⟩).events =
      Event.streamingUpdate "" true "ask" "m" "hi" ::
        ["ab", "cd"].map (chunkEvent "ask" "m" "hi") ∧
    ∀ r a' m' t', Event.processingComplete r a' m' t' ∉
      (processText "hi" "ask" "m"
        [⟨.throwsAfter ["ab", "cd"] ⟨"AbortError", "x"⟩, .resolves "", ⟨true⟩, 0⟩]
        ⟨some ⟨true⟩, false, true, none⟩).events :=
  c3_abort_partial_text ⟨some ⟨true⟩, false, true, none⟩ ⟨true⟩
    ⟨.throwsAfter ["ab", "cd"] ⟨"AbortError", "x"⟩, .resolves "", ⟨true⟩, 0⟩ []
    "hi" "ask" "m" ["ab", "cd"] ⟨"AbortError", "x"⟩ rfl rfl rfl rfl rfl
    (by decide) (by decide)

/-- C4: a `processText` call made while another request is in flight is
rejected with the "already processing" error without opening a second
stream (no host call, no event, no state change); a call made when no
session exists is rejected with the "session unavailable" error. -/
theorem c4_precondition_rejections
    (s : CoreState) (host : List Attempt) (text action metadata : String) :
    (s.session = none →
      processText text action metadata host s =
        ⟨.thrown sessionUnavailableError, s, [], []⟩) ∧
    (∀ caps, s.session = some caps → s.isProcessing = true →
      processText text action metadata host s =
        ⟨.thrown alreadyProcessingError, s, [], []⟩) :=
  ⟨fun h => reject_no_session text action metadata host s h,
   fun caps h hb => reject_busy text action metadata host s caps h hb⟩

/-- Witness for C4 at concrete states: one with no session, one busy. -/
theorem c4_precondition_rejections_witness :
    processText "t" "a" "m" [] ⟨none, false, false, none⟩ =
      ⟨.thrown sessionUnavailableError, ⟨none, false, false, none⟩, [], []⟩ ∧
    processText "t" "a" "m" [] ⟨some ⟨true⟩, true, true, some 3⟩ =
      ⟨.thrown alreadyProcessingError, ⟨some ⟨true⟩, true, true, some 3⟩, [], []⟩ :=
  ⟨(c4_precondition_rejections ⟨none, false, false, none⟩ [] "t" "a" "m").1 rfl,
   (c4_precondition_rejections ⟨some ⟨true⟩, true, true, some 3⟩ [] "t" "a" "m").2
     ⟨true⟩ rfl rfl⟩

/-- C10: a `processText` call rejected by a precondition check (no session,
or another request in flight) leaves the whole core state unchanged, emits
no streaming, completion or error notification, makes no host call, and
settles by throwing. -/
theorem c10_precondition_rejection_is_pure
    (s : CoreState) (host : List Attempt) (text action metadata : String)
    (h : s.session = none ∨ s.isProcessing = true) :
    (processText text action metadata host s).state = s ∧
    (processText text action metadata host s).events = [] ∧
    (processText text action metadata host s).calls = [] ∧
    ∃ e, (processText text action metadata host s).res = .thrown e := by
  rcases h with h | h
  · rw [reject_no_session text action metadata host s h]
    exact ⟨rfl, rfl, rfl, sessionUnavailableError, rfl⟩
  · cases hs : s.session with
    | none =>
      rw [reject_no_session text action metadata host s hs]
      exact ⟨rfl, rfl, rfl, sessionUnavailableError, rfl⟩
    | some caps =>
      rw [reject_busy text action metadata host s caps hs h]
      exact ⟨rfl, rfl, rfl, alreadyProcessingError, rfl⟩

/-- Witness for C10 at a concrete busy state. -/
theorem c10_precondition_rejection_is_pure_witness :
    (processText "t" "a" "m" [] ⟨some ⟨false⟩, true, true, some 7⟩).state =
      ⟨some ⟨false⟩, true, true, some 7⟩ ∧
    (processText "t" "a" "m" [] ⟨some ⟨false⟩, true, true, some 7⟩).events = [] ∧
    (processText "t" "a" "m" [] ⟨some ⟨false⟩, true, true, some 7⟩).calls = [] ∧
    ∃ e, (processText "t" "a" "m" [] ⟨some ⟨false⟩, true, true, some 7⟩).res =
      .thrown e :=
  c10_precondition_rejection_is_pure ⟨some ⟨false⟩, true, true, some 7⟩ []
    "t" "a" "m" (Or.inr rfl)

/-- C6: when the reported Chrome version is below 127, `checkAvailability`
returns `{available := false, status := "unsupported"}` and performs no
capability query at all (the probe-call list is empty), whatever interface
the host exposes. -/
theorem c6_unsupported_version_no_probe (env : HostEnv)
    (h : env.chromeVersion < 127) :
    checkAvailability env =
      (⟨false, "unsupported",
        some ("Chrome 127+ é necessário (atual: " ++
          toString env.chromeVersion ++ ")")⟩, []) := by
  simp [checkAvailability, h]

/-- Witness for C6: Chrome 120 with a fully capable interface. -/
theorem c6_unsupported_version_no_probe_witness :
    checkAvailability ⟨120, some ⟨some (.ok "readily"), some (.ok "readily")⟩⟩ =
      (⟨false, "unsupported",
        some ("Chrome 127+ é necessário (atual: " ++ toString (120 : Nat) ++ ")")⟩,
        []) :=
  c6_unsupported_version_no_probe ⟨120, some ⟨some (.ok "readily"), some (.ok "readily")⟩⟩
    (by decide)

theorem availabilityStatusMap_download (r : Except String String)
    (h : (availabilityStatusMap r).status = "downloadable" ∨
      (availabilityStatusMap r).status = "downloading") :
    (availabilityStatusMap r).available = false := by
  cases r with
  | error msg => simp [availabilityStatusMap] at h
  | ok a =>
    simp only [availabilityStatusMap] at h ⊢
    split_ifs at h ⊢ <;> simp_all

theorem checkAvailability_download_not_available (env : HostEnv)
    (h : (checkAvailability env).1.status = "downloadable" ∨
      (checkAvailability env).1.status = "downloading") :
    (checkAvailability env).1.available = false := by
  by_cases hv : env.chromeVersion < 127
  · simp [checkAvailability, hv] at h
  · cases hai : env.aiInterface with
    | none => simp [checkAvailability, hv, hai] at h
    | some ai =>
      simp only [checkAvailability, hv, hai, if_false, if_neg hv] at h ⊢
      exact availabilityStatusMap_download _ h

/-- C7: whenever the capability probe yields status `downloadable` or
`downloading`, `initialize` (outside its already-initialized fast path)
returns `success := false` with `status` equal to the probe status — never
`success := true`. -/
theorem c7_download_status_fails_initialize (env : HostEnv)
    (co : Except String SessionCaps) (s : CoreState)
    (hfast : (s.isInitialized && s.session.isSome) = false)
    (h : (checkAvailability env).1.status = "downloadable" ∨
      (checkAvailability env).1.status = "downloading") :
    (initializeCore env co s).1.success = false ∧
    (initializeCore env co s).1.status = (checkAvailability env).1.status := by
  have hav := checkAvailability_download_not_available env h
  simp [initializeCore, hfast, hav]

/-- Witness for C7: a fresh core, Chrome 130, probe status `downloadable`. -/
theorem c7_download_status_fails_initialize_witness :
    (initializeCore ⟨130, some ⟨some (.ok "downloadable"), none⟩⟩ (.ok ⟨true⟩)
      ⟨none, false, false, none⟩).1.success = false ∧
    (initializeCore ⟨130, some ⟨some (.ok "downloadable"), none⟩⟩ (.ok ⟨true⟩)
      ⟨none, false, false, none⟩).1.status =
      (checkAvailability ⟨130, some ⟨some (.ok "downloadable"), none⟩⟩).1.status :=
  c7_download_status_fails_initialize ⟨130, some ⟨some (.ok "downloadable"), none⟩⟩
    (.ok ⟨true⟩) ⟨none, false, false, none⟩ rfl (Or.inl rfl)

/-- C8: when the stream throws a non-abort error after some chunks, the
executor falls back to one blocking prompt call carrying the same
cancellation token (the same controller label appears on both host calls),
forwards the blocking call's full result as one chunk, and the completion
notification carries exactly the blocking call's text — not the accumulated
partial text concatenated with it. -/
theorem c8_stream_error_fallback
    (s : CoreState) (caps : SessionCaps) (a : Attempt) (rest : List Attempt)
    (text action metadata : String) (chunks : List String) (e : JsError)
    (t : String)
    (hsess : s.session = some caps) (hbusy : s.isProcessing = false)
    (hstr : caps.hasStreaming = true) (hbeh : a.stream = .throwsAfter chunks e)
    (hnab : e.name ≠ "AbortError") (hfb : a.fallback = .resolves t) :
    (processText text action metadata (a :: rest) s).res =
      .ret ⟨true, t, some action, false⟩ ∧
    (processText text action metadata (a :: rest) s).calls =
      [HostCall.promptStreaming a.tok, HostCall.prompt a.tok] ∧
    (processText text action metadata (a :: rest) s).events =
      Event.streamingUpdate "" true action metadata text ::
        (forwardedChunks chunks).map (chunkEvent action metadata text) ++
        [Event.streamingUpdate t false action metadata text,
         Event.processingComplete t action metadata text] := by
  refine ⟨?_, ?_, ?_⟩ <;>
    simp [processText, processTextAux, hsess, hbusy, tryBody, hstr, hbeh,
      hnab, hfb, consumeChunks_eq]

/-- Witness for C8: partial text "Hello" already emitted, blocking call
resolves with "Full answer"; the completion carries "Full answer" alone. -/
theorem c8_stream_error_fallback_witness :
    (processText "hi" "ask" "m"
        [⟨.throwsAfter ["Hello"] ⟨"TypeError", "boom"⟩, .resolves "Full answer", ⟨true⟩, 7⟩]
        ⟨some ⟨true⟩, false, true, none⟩).res =
      .ret ⟨true, "Full answer", some "ask", false⟩ ∧
    (processText "hi" "ask" "m"
        [⟨.throwsAfter ["Hello"] ⟨"TypeError", "boom"⟩, .resolves "Full answer", ⟨true⟩, 7⟩]
        ⟨some ⟨true⟩, false, true, none⟩).calls =
      [HostCall.promptStreaming 7, HostCall.prompt 7] ∧
    (processText "hi" "ask" "m"
        [⟨.throwsAfter ["Hello"] ⟨"TypeError", "boom"⟩, .resolves "Full answer", ⟨true⟩, 7⟩]
        ⟨some ⟨true⟩, false, true, none⟩).events =
      Event.streamingUpdate "" true "ask" "m" "hi" ::
        (forwardedChunks ["Hello"]).map (chunkEvent "ask" "m" "hi") ++
        [Event.streamingUpdate "Full answer" false "ask" "m" "hi",
         Event.processingComplete "Full answer" "ask" "m" "hi"] :=
  c8_stream_error_fallback ⟨some ⟨true⟩, false, true, none⟩ ⟨true⟩
    ⟨.throwsAfter ["Hello"] ⟨"TypeError", "boom"⟩, .resolves "Full answer", ⟨true⟩, 7⟩
    [] "hi" "ask" "m" ["Hello"] ⟨"TypeError", "boom"⟩ "Full answer"
    rfl rfl rfl rfl (by decide) rfl

/-- C9: the fetch handler passes non-GET requests through untouched, answers
navigation requests network-first (caching the fresh index on success,
serving the cached index on failure), and answers every other GET
cache-first (serving a hit unchanged, otherwise fetching and populating the
cache on success). -/
theorem c9_fetch_policy (cache : SWCache) (net : NetResult) (req : SWRequest) :
    (req.method ≠ "GET" → handleFetch cache net req = (.passthrough, cache)) ∧
    (req.method = "GET" → req.mode = "navigate" →
      (∀ body, net = .ok body →
        handleFetch cache net req =
          (.respond (some body), cachePut cache "./index.html" body)) ∧
      (net = .fail →
        handleFetch cache net req =
          (.respond (cacheMatch cache "./index.html"), cache))) ∧
    (req.method = "GET" → req.mode ≠ "navigate" →
      (∀ body, cacheMatch cache req.url = some body →
        handleFetch cache net req = (.respond (some body), cache)) ∧
      (cacheMatch cache req.url = none →
        (∀ body, net = .ok body →
          handleFetch cache net req =
            (.respond (some body), cachePut cache req.url body)) ∧
        (net = .fail → handleFetch cache net req = (.respond none, cache)))) := by
  refine ⟨fun h => by simp [handleFetch, h], fun hg hn => ⟨?_, ?_⟩, fun hg hn => ⟨?_, ?_⟩⟩
  · intro body hb; simp [handleFetch, hg, hn, hb]
  · intro hb; simp [handleFetch, hg, hn, hb]
  · intro body hb; simp [handleFetch, hg, hn, hb]
  · intro hb
    refine ⟨fun body hnet => ?_, fun hnet => ?_⟩ <;> simp [handleFetch, hg, hn, hb, hnet]

/-- Witness for C9: one request per branch — a POST, a successful
navigation, and a cache hit. -/
theorem c9_fetch_policy_witness :
    handleFetch [] (.ok "net") ⟨"POST", "cors", "./x"⟩ = (.passthrough, []) ∧
    handleFetch [] (.ok "idx") ⟨"GET", "navigate", "./"⟩ =
      (.respond (some "idx"), cachePut [] "./index.html" "idx") ∧
    handleFetch [("./x", "c")] .fail ⟨"GET", "cors", "./x"⟩ =
      (.respond (some "c"), [("./x", "c")]) :=
  ⟨(c9_fetch_policy [] (.ok "net") ⟨"POST", "cors", "./x"⟩).1 (by decide),
   ((c9_fetch_policy [] (.ok "idx") ⟨"GET", "navigate", "./"⟩).2.1 rfl rfl).1 "idx" rfl,
   ((c9_fetch_policy [("./x", "c")] .fail ⟨"GET", "cors", "./x"⟩).2.2 rfl
     (by decide)).1 "c" rfl⟩

theorem mstep_accept_shape (s : MState) (op : Op)
    (s0 : SessState) (b : Bool) (n : Nat)
    (h : Obs.accepted s0 b n ∈ (mstep s op).2) :
    s0 ≠ SessState.noSess ∧ b = false := by
  cases op with
  | callProcess =>
    by_cases h1 : s.sess = SessState.noSess
    · simp [mstep, h1] at h
    · by_cases h2 : s.busy
      · simp [mstep, h1, h2] at h
      · simp [mstep, h1, h2] at h
        obtain ⟨h3, h4, -⟩ := h
        subst h3
        subst h4
        exact ⟨h1, rfl⟩
  | callStop => cases hc : s.ctrl <;> simp [mstep, hc] at h
  | callDestroy => simp [mstep] at h
  | createBegin => simp [mstep] at h
  | createResume =>
    by_cases hc : s.creating = 0 <;> simp [mstep, hc] at h
  | resumeAborted tid =>
    by_cases hf : (s.frames.filter (fun f => f.tid == tid && f.aborted)).isEmpty <;>
      simp [mstep, hf] at h
  | finishFrame tid =>
    by_cases hf : (s.frames.filter (fun f => f.tid == tid && !f.aborted)).isEmpty <;>
      simp [mstep, hf] at h

/-- The flag-level invariant: whenever the busy flag is set, the stored
session handle is non-null. -/
def mInv (s : MState) : Prop :=
  s.busy = true → s.sess ≠ SessState.noSess

theorem mstep_preserves_mInv (s : MState) (op : Op) (h : mInv s) :
    mInv (mstep s op).1 := by
  cases op with
  | callProcess =>
    by_cases h1 : s.sess = SessState.noSess
    · simpa [mstep, h1] using h
    · by_cases h2 : s.busy <;> simp [mstep, mInv, h1, h2]
  | callStop => cases hc : s.ctrl <;> simp_all [mstep, mInv]
  | callDestroy => simp [mstep, mInv]
  | createBegin =>
    intro hb
    by_cases h1 : s.sess = SessState.noSess
    · exact absurd h1 (h (by simpa [mstep] using hb))
    · simp [mstep, h1]
  | createResume =>
    by_cases hc : s.creating = 0 <;> simp_all [mstep, mInv]
  | resumeAborted tid =>
    unfold mInv
    simp only [mstep]
    split
    · exact h
    · simp
  | finishFrame tid =>
    unfold mInv
    simp only [mstep]
    split
    · exact h
    · simp

theorem mrun_accept_shape (ops : List Op) (s : MState)
    (s0 : SessState) (b : Bool) (n : Nat)
    (h : Obs.accepted s0 b n ∈ (mrun s ops).2) :
    s0 ≠ SessState.noSess ∧ b = false := by
  induction ops generalizing s with
  | nil => simp [mrun] at h
  | cons op ops ih =>
    simp only [mrun, List.mem_append] at h
    rcases h with h | h
    · exact mstep_accept_shape s op s0 b n h
    · exact ih (mstep s op).1 h

theorem mrun_preserves_mInv (ops : List Op) (s : MState) (h : mInv s) :
    mInv (mrun s ops).1 := by
  induction ops generalizing s with
  | nil => simpa [mrun] using h
  | cons op ops ih => exact ih (mstep s op).1 (mstep_preserves_mInv s op h)

/-- C5 counterexample: from a freshly constructed core, the operation
sequence create-session; process; stop; create-session; process leads to a
`processText` acceptance at a moment when the stored session handle refers
to a destroyed session (the second `createSession` destroyed it and is
still suspended at its `create` await) and the first, cancelled request's
frame is still unwinding (one other frame in flight) — refuting the claim
that no sequence of `createSession`, `processText`, `stopProcessing` and
`destroy` operations can reach such an acceptance. -/
theorem c5_counterexample_accept_while_unwinding :
    Obs.accepted SessState.deadSess false 1 ∈
      (mrun mInit0 [.createBegin, .createResume, .callProcess, .callStop,
        .createBegin, .callProcess]).2 := by
  decide

/-- C5 (amended): in every reachable state of the lifecycle machine, a
request is accepted only when the stored session handle is non-null and the
busy flag is clear at the check, and whenever the busy flag is set a
session handle exists; the stronger property claimed — that no acceptance
can happen while the handle refers to a destroyed session or while another
request's frame is still unwinding — does not hold (see the
counterexample). -/
theorem c5_accept_only_with_handle_and_idle_flag (ops : List Op) :
    (∀ s0 b n, Obs.accepted s0 b n ∈ (mrun mInit0 ops).2 →
      s0 ≠ SessState.noSess ∧ b = false) ∧
    ((mrun mInit0 ops).1.busy = true →
      (mrun mInit0 ops).1.sess ≠ SessState.noSess) :=
  ⟨fun s0 b n h => mrun_accept_shape ops mInit0 s0 b n h,
   mrun_preserves_mInv ops mInit0 (by simp [mInv, mInit0])⟩

/-- Witness for the amended C5: a trace whose single acceptance happened
with a live handle and a clear busy flag. -/
theorem c5_accept_only_with_handle_and_idle_flag_witness :
    SessState.liveSess ≠ SessState.noSess ∧ false = false :=
  (c5_accept_only_with_handle_and_idle_flag
      [.createBegin, .createResume, .callProcess]).1
    SessState.liveSess false 0 (by decide)

end GeminiNano
